import Mathlib

/-!
Verification of the SmartBank Credential & Fraud-Risk Engine.

Shallow embedding, in Lean 4, of the authentication core of the repository:

* `src/server/utils/crypto.js`   — SHA-512 salted hashing and MPIN verification
  (`sha512Hash`, `verifyMpin`, `generateSalt`, `rsaDecrypt`);
* `src/server/models/User.js`    — the user schema and its methods
  (`isLocked`, `incrementFailedAttempts`, `resetFailedAttempts`, `toJSON`);
* `src/server/models/LoginAttempt.js` — the attempt-ledger record;
* `src/server/middleware/fraudDetector.js` — `calculateRiskScore`, `logLoginAttempt`;
* `src/server/routes/auth.js`    — the `verify-otp`, `register` and `login` handlers.

Machine integers are modelled as `Nat` with explicit `% 2 ^ 64` where 64-bit
overflow matters; timestamps are epoch milliseconds as `Nat`; JavaScript
exceptions are modelled with `Option` / `Except`.
-/

set_option maxRecDepth 100000
set_option maxHeartbeats 2000000

namespace SmartBank

/-! ## Bytes and hex encoding -/

/-- UTF-8 encoding of a single code point, as the list of its bytes
(each in `0..255`).  Mirrors what Node's `Buffer`/`Hash.update` do with a
JavaScript string. -/
def utf8Char (c : Char) : List Nat :=
  let n := c.toNat
  if n < 0x80 then [n]
  else if n < 0x800 then
    [0xC0 ||| (n >>> 6), 0x80 ||| (n &&& 0x3F)]
  else if n < 0x10000 then
    [0xE0 ||| (n >>> 12), 0x80 ||| ((n >>> 6) &&& 0x3F), 0x80 ||| (n &&& 0x3F)]
  else
    [0xF0 ||| (n >>> 18), 0x80 ||| ((n >>> 12) &&& 0x3F),
     0x80 ||| ((n >>> 6) &&& 0x3F), 0x80 ||| (n &&& 0x3F)]

/-- UTF-8 bytes of a string. -/
def utf8Bytes (s : String) : List Nat :=
  s.data.flatMap utf8Char

/-- The character for one hex digit (lowercase, as Node's
`digest('hex')` / `toString('hex')` produce). -/
def hexDigitChar (n : Nat) : Char :=
  if n < 10 then Char.ofNat (48 + n) else Char.ofNat (87 + n)

/-- Two lowercase hex characters for one byte. -/
def byteHex (b : Nat) : List Char :=
  [hexDigitChar (b / 16 % 16), hexDigitChar (b % 16)]

/-- Hex encoding of a byte list (Node `buf.toString('hex')`). -/
def bytesToHex (bs : List Nat) : String :=
  String.mk (bs.flatMap byteHex)

/-- Numeric value of one hex character, `none` if it is not a hex digit. -/
def hexVal (c : Char) : Option Nat :=
  if 48 ≤ c.toNat ∧ c.toNat ≤ 57 then some (c.toNat - 48)
  else if 97 ≤ c.toNat ∧ c.toNat ≤ 102 then some (c.toNat - 87)
  else if 65 ≤ c.toNat ∧ c.toNat ≤ 70 then some (c.toNat - 55)
  else none

/-- Hex decoding over characters; like Node's `Buffer.from(s, 'hex')` it
stops at the first invalid pair (and drops a lone trailing nibble). -/
def hexDecodeChars : List Char → List Nat
  | c1 :: c2 :: rest =>
    match hexVal c1, hexVal c2 with
    | some hi, some lo => (16 * hi + lo) :: hexDecodeChars rest
    | _, _ => []
  | _ => []

/-- Hex decoding of a string to bytes (Node `Buffer.from(s, 'hex')`). -/
def hexDecode (s : String) : List Nat :=
  hexDecodeChars s.data

/-! ## SHA-512 (the algorithm behind Node's `crypto.createHash('sha512')`)

`src/server/utils/crypto.js` delegates the digest itself to Node's `crypto`
library, which is outside the repository; the computation below is the
FIPS 180-4 SHA-512 algorithm that library implements, over `Nat` with
explicit reduction mod `2 ^ 64`. -/

/-- 64-bit modulus. -/
def M64 : Nat := 2 ^ 64

/-- 64-bit addition. -/
def add64 (a b : Nat) : Nat := (a + b) % M64

/-- 64-bit right rotation. -/
def rotr64 (x n : Nat) : Nat := ((x >>> n) ||| (x <<< (64 - n))) % M64

/-- 64-bit bitwise complement. -/
def not64 (x : Nat) : Nat := x ^^^ (M64 - 1)

def bigSigma0 (x : Nat) : Nat := (rotr64 x 28) ^^^ (rotr64 x 34) ^^^ (rotr64 x 39)
def bigSigma1 (x : Nat) : Nat := (rotr64 x 14) ^^^ (rotr64 x 18) ^^^ (rotr64 x 41)
def smallSigma0 (x : Nat) : Nat := (rotr64 x 1) ^^^ (rotr64 x 8) ^^^ (x >>> 7)
def smallSigma1 (x : Nat) : Nat := (rotr64 x 19) ^^^ (rotr64 x 61) ^^^ (x >>> 6)
def chFn (x y z : Nat) : Nat := (x &&& y) ^^^ (not64 x &&& z)
def majFn (x y z : Nat) : Nat := (x &&& y) ^^^ (x &&& z) ^^^ (y &&& z)

/-- SHA-512 round constants (the first 64 bits of the fractional parts of
the cube roots of the first 80 primes, here written in decimal). -/
def sha512K : List Nat :=
  [4794697086780616226, 8158064640168781261, 13096744586834688815, 16840607885511220156,
   4131703408338449720, 6480981068601479193, 10538285296894168987, 12329834152419229976,
   15566598209576043074, 1334009975649890238, 2608012711638119052, 6128411473006802146,
   8268148722764581231, 9286055187155687089, 11230858885718282805, 13951009754708518548,
   16472876342353939154, 17275323862435702243, 1135362057144423861, 2597628984639134821,
   3308224258029322869, 5365058923640841347, 6679025012923562964, 8573033837759648693,
   10970295158949994411, 12119686244451234320, 12683024718118986047, 13788192230050041572,
   14330467153632333762, 15395433587784984357, 489312712824947311, 1452737877330783856,
   2861767655752347644, 3322285676063803686, 5560940570517711597, 5996557281743188959,
   7280758554555802590, 8532644243296465576, 9350256976987008742, 10552545826968843579,
   11727347734174303076, 12113106623233404929, 14000437183269869457, 14369950271660146224,
   15101387698204529176, 15463397548674623760, 17586052441742319658, 1182934255886127544,
   1847814050463011016, 2177327727835720531, 2830643537854262169, 3796741975233480872,
   4115178125766777443, 5681478168544905931, 6601373596472566643, 7507060721942968483,
   8399075790359081724, 8693463985226723168, 9568029438360202098, 10144078919501101548,
   10430055236837252648, 11840083180663258601, 13761210420658862357, 14299343276471374635,
   14566680578165727644, 15097957966210449927, 16922976911328602910, 17689382322260857208,
   500013540394364858, 748580250866718886, 1242879168328830382, 1977374033974150939,
   2944078676154940804, 3659926193048069267, 4368137639120453308, 4836135668995329356,
   5532061633213252278, 6448918945643986474, 6902733635092675308, 7801388544844847127]

/-- The eight 64-bit words of a SHA-512 chaining state. -/
structure Sha512State where
  a : Nat
  b : Nat
  c : Nat
  d : Nat
  e : Nat
  f : Nat
  g : Nat
  h : Nat

/-- SHA-512 initial hash value (the first 64 bits of the fractional parts
of the square roots of the first 8 primes, here written in decimal). -/
def sha512H0 : Sha512State :=
  ⟨7640891576956012808, 13503953896175478587, 4354685564936845355, 11912009170470909681,
   5840696475078001361, 11170449401992604703, 2270897969802886507, 6620516959819538809⟩

/-- Split a byte list into chunks of `k` bytes (fuelled by the list length,
so the recursion is structural). -/
def chunksGo (k : Nat) : Nat → List Nat → List (List Nat)
  | 0, _ => []
  | _, [] => []
  | fuel + 1, l => l.take k :: chunksGo k fuel (l.drop k)

def chunksOf (k : Nat) (l : List Nat) : List (List Nat) :=
  chunksGo k l.length l

/-- Big-endian bytes of `n`, exactly `k` bytes wide. -/
def toBytesBE : Nat → Nat → List Nat
  | 0, _ => []
  | k + 1, n => toBytesBE k (n >>> 8) ++ [n % 256]

/-- One big-endian 64-bit word from 8 bytes. -/
def wordOfBytes (bs : List Nat) : Nat :=
  bs.foldl (fun acc b => acc * 256 + b) 0

/-- SHA-512 padding: append `0x80`, zero bytes to 112 mod 128, then the
128-bit big-endian bit length. -/
def sha512Pad (msg : List Nat) : List Nat :=
  let L := msg.length
  msg ++ (0x80 :: List.replicate ((128 - (L + 17) % 128) % 128) 0) ++ toBytesBE 16 (8 * L)

/-- Message schedule: the 80 words `W₀..W₇₉` for one 128-byte block. -/
def sha512Schedule (block : List Nat) : Array Nat :=
  let w16 := ((chunksOf 8 block).map wordOfBytes).toArray
  (List.range 64).foldl
    (fun w i =>
      let t := i + 16
      w.push (add64 (add64 (smallSigma1 (w.getD (t - 2) 0)) (w.getD (t - 7) 0))
                    (add64 (smallSigma0 (w.getD (t - 15) 0)) (w.getD (t - 16) 0))))
    w16

/-- One SHA-512 round. -/
def sha512Round (w : Array Nat) (st : Sha512State) (t : Nat) : Sha512State :=
  let t1 := add64 st.h (add64 (bigSigma1 st.e)
              (add64 (chFn st.e st.f st.g) (add64 (sha512K.getD t 0) (w.getD t 0))))
  let t2 := add64 (bigSigma0 st.a) (majFn st.a st.b st.c)
  ⟨add64 t1 t2, st.a, st.b, st.c, add64 st.d t1, st.e, st.f, st.g⟩

/-- SHA-512 compression of one 128-byte block into the chaining state. -/
def sha512Compress (hs : Sha512State) (block : List Nat) : Sha512State :=
  let w := sha512Schedule block
  let r := (List.range 80).foldl (sha512Round w) hs
  ⟨add64 hs.a r.a, add64 hs.b r.b, add64 hs.c r.c, add64 hs.d r.d,
   add64 hs.e r.e, add64 hs.f r.f, add64 hs.g r.g, add64 hs.h r.h⟩

/-- The 64 digest bytes of a SHA-512 state. -/
def sha512StateBytes (s : Sha512State) : List Nat :=
  toBytesBE 8 s.a ++ toBytesBE 8 s.b ++ toBytesBE 8 s.c ++ toBytesBE 8 s.d ++
  toBytesBE 8 s.e ++ toBytesBE 8 s.f ++ toBytesBE 8 s.g ++ toBytesBE 8 s.h

/-- SHA-512 digest (64 bytes) of a byte message. -/
def sha512Bytes (msg : List Nat) : List Nat :=
  sha512StateBytes ((chunksOf 128 (sha512Pad msg)).foldl sha512Compress sha512H0)

/-- Lowercase hex SHA-512 digest of a string, as
`crypto.createHash('sha512').update(s).digest('hex')` returns. -/
def sha512hex (s : String) : String :=
  bytesToHex (sha512Bytes (utf8Bytes s))

/-! ## `src/server/utils/crypto.js` -/

/-- `sha512Hash(mpin, salt)`: SHA-512 hex digest of `salt + mpin`
(the salt is prepended to the MPIN before hashing). -/
def sha512Hash (mpin salt : String) : String :=
  sha512hex (salt ++ mpin)

/-- Modelled from the spec: Node's `crypto.timingSafeEqual(a, b)` is external
to the repository; the spec describes it as a "constant-time equality check
(fixed-time byte comparison regardless of where a mismatch occurs)".  It
throws when the buffers have different lengths (modelled as `none`);
otherwise it accumulates the XOR of every byte pair — never exiting early —
and reports whether the accumulator is zero. -/
def timingSafeEqual (a b : List Nat) : Option Bool :=
  if a.length = b.length then
    some (((a.zip b).foldl (fun acc p => acc ||| (p.1 ^^^ p.2)) 0) == 0)
  else none

/-- Modelled from the spec: the number of byte comparisons
`crypto.timingSafeEqual` performs — one per byte pair, with no early exit, so
it depends only on the buffer lengths.  This is the cost model in which
constant-time execution is stated. -/
def timingSafeEqualSteps (a b : List Nat) : Nat :=
  (a.zip b).length

/-- `verifyMpin(inputMpin, storedHash, salt)`: recompute the salted SHA-512
hex digest of the entered MPIN and compare it with the stored digest using
the constant-time comparison (both sides hex-decoded to bytes first).
`none` models the exception `timingSafeEqual` throws on unequal buffer
lengths. -/
def verifyMpin (inputMpin storedHash salt : String) : Option Bool :=
  timingSafeEqual (hexDecode (sha512Hash inputMpin salt)) (hexDecode storedHash)

/-- The comparison cost of one `verifyMpin` call, in the byte-comparison
cost model of `timingSafeEqualSteps`. -/
def verifyMpinSteps (inputMpin storedHash salt : String) : Nat :=
  timingSafeEqualSteps (hexDecode (sha512Hash inputMpin salt)) (hexDecode storedHash)

/-! ## `src/server/models/User.js` — user schema and methods -/

/-- A device binding (`deviceSchema`). -/
structure Device where
  fingerprint : String
  userAgent : String
  lastUsed : Nat
  trusted : Bool
  deriving DecidableEq, Repr

/-- A user record (`userSchema`).  Timestamps are epoch milliseconds;
`lockedUntil = none` models the schema default `null`; `id` models the
Mongo `_id`. -/
structure User where
  id : String
  phone : String
  name : String
  mpinHash : String
  mpinSalt : String
  devices : List Device
  failedAttempts : Nat
  lockedUntil : Option Nat
  createdAt : Nat
  lastLogin : Option Nat
  deriving DecidableEq, Repr

/-- 30 minutes in milliseconds (`30 * 60 * 1000`), the lock duration. -/
def lockDurationMs : Nat := 30 * 60 * 1000

/-- `userSchema.methods.isLocked`: locked iff a `lockedUntil` timestamp is
set and `now` is strictly before it. -/
def User.isLocked (u : User) (now : Nat) : Bool :=
  match u.lockedUntil with
  | none => false
  | some t => now < t

/-- `userSchema.methods.incrementFailedAttempts`: add one failure; if the
counter has then reached 5, set `lockedUntil := now + 30 minutes` and reset
the counter to 0 in the same update. -/
def User.incrementFailedAttempts (u : User) (now : Nat) : User :=
  let f := u.failedAttempts + 1
  if 5 ≤ f then
    { u with failedAttempts := 0, lockedUntil := some (now + lockDurationMs) }
  else
    { u with failedAttempts := f }

/-- `userSchema.methods.resetFailedAttempts`: clear the counter and the lock
and stamp `lastLogin` on a successful login. -/
def User.resetFailedAttempts (u : User) (now : Nat) : User :=
  { u with failedAttempts := 0, lockedUntil := none, lastLogin := some now }

/-- The plain field map of a user document (`this.toObject()`), as
association list from field name to a stringified value. -/
def User.toObject (u : User) : List (String × String) :=
  [("_id", u.id),
   ("phone", u.phone),
   ("name", u.name),
   ("mpinHash", u.mpinHash),
   ("mpinSalt", u.mpinSalt),
   ("devices", String.intercalate "," (u.devices.map Device.fingerprint)),
   ("failedAttempts", toString u.failedAttempts),
   ("lockedUntil", toString u.lockedUntil),
   ("createdAt", toString u.createdAt),
   ("lastLogin", toString u.lastLogin),
   ("__v", "0")]

/-- `userSchema.methods.toJSON`: the object with the sensitive fields
`mpinHash`, `mpinSalt` and the version key `__v` deleted. -/
def User.toJSON (u : User) : List (String × String) :=
  u.toObject.filter
    (fun kv => kv.1 ≠ "mpinHash" ∧ kv.1 ≠ "mpinSalt" ∧ kv.1 ≠ "__v")

/-! ## `src/server/models/LoginAttempt.js` — the attempt ledger record -/

/-- One attempt-ledger record (`loginAttemptSchema`). -/
structure LoginAttempt where
  phone : String
  ip : String
  fingerprint : String
  userAgent : String
  success : Bool
  reason : String
  riskScore : Nat
  timestamp : Nat
  deriving DecidableEq, Repr

/-! ## `src/server/middleware/fraudDetector.js` -/

/-- The risk assessment returned by `calculateRiskScore`:
`{ score, flags, action }` with `action` one of the strings
`"allow" | "warn" | "block"`. -/
structure RiskAssessment where
  score : Nat
  flags : List String
  action : String
  deriving DecidableEq, Repr

/-- JavaScript's `[...new Set(xs)]` on strings: distinct elements, first
occurrence order (helper keeping the set of already-seen elements). -/
def dedupFirstAux (seen : List String) : List String → List String
  | [] => []
  | x :: xs =>
    if seen.contains x then dedupFirstAux seen xs
    else x :: dedupFirstAux (x :: seen) xs

def dedupFirst (l : List String) : List String := dedupFirstAux [] l

/-- `calculateRiskScore(phone, currentIp, fingerprint)`.

`ledgerRead` is the outcome of the attempt-ledger query performed inside the
`try` block (`LoginAttempt.find({phone, timestamp ≥ now − 30 days})`
sorted most-recent-first, limited to 50); `.error` models that read
throwing, which the `catch` turns into the neutral fallback.  `now` is
`Date.now()` in epoch milliseconds and `nowHour` is `new Date().getHours()`
(local hour of day, `0..23`). -/
def calculateRiskScore (ledgerRead : Except String (List LoginAttempt))
    (currentIp fingerprint : String) (now nowHour : Nat) : RiskAssessment :=
  match ledgerRead with
  | .error _ => { score := 10, flags := ["detection_error"], action := "allow" }
  | .ok recentAttempts =>
    let base :=
      if recentAttempts.length = 0 then
        (5, ["first_login"])
      else
        let succAttempts := recentAttempts.filter (fun a => a.success)
        let knownIps := dedupFirst (succAttempts.map (fun a => a.ip))
        let r1 := if knownIps.length > 0 ∧ ¬ knownIps.contains currentIp
                  then (20, ["new_ip"]) else (0, [])
        let knownFingerprints := dedupFirst (succAttempts.map (fun a => a.fingerprint))
        let r2 := if knownFingerprints.length > 0 ∧ ¬ knownFingerprints.contains fingerprint
                  then (25, ["new_device"]) else (0, [])
        let rapidAttempts := recentAttempts.filter (fun a => now ≤ a.timestamp + 5 * 60 * 1000)
        let r3 := if rapidAttempts.length > 3 then (30, ["rapid_attempts"]) else (0, [])
        let recentFails := (recentAttempts.filter (fun a => ¬ a.success)).length
        let r4 := if 2 * recentFails > max recentAttempts.length 1
                  then (15, ["high_failure_rate"]) else (0, [])
        (r1.1 + r2.1 + r3.1 + r4.1, r1.2 ++ r2.2 ++ r3.2 ++ r4.2)
    let hourly := if 2 ≤ nowHour ∧ nowHour ≤ 5 then (10, ["unusual_hour"]) else (0, [])
    let score := base.1 + hourly.1
    let action := if score > 60 then "block" else if score > 30 then "warn" else "allow"
    { score := min score 100, flags := base.2 ++ hourly.2, action := action }

/-- JavaScript `v || dflt` on an optional string field (absent or empty
means falsy). -/
def jsOrStr (v : Option String) (dflt : String) : String :=
  match v with
  | none => dflt
  | some s => if s = "" then dflt else s

/-- The argument object of `logLoginAttempt`; optional fields model
properties a call site may omit. -/
structure AttemptData where
  phone : String
  ip : String
  fingerprint : Option String
  userAgent : Option String
  success : Bool
  reason : Option String
  riskScore : Option Nat

/-- The record `logLoginAttempt(data)` creates: defaults
`fingerprint || 'unknown'`, `userAgent || ''`, `reason || 'success'`,
`riskScore || 0`, with the schema-default timestamp `Date.now()`. -/
def mkLoginAttempt (d : AttemptData) (now : Nat) : LoginAttempt :=
  { phone := d.phone
    ip := d.ip
    fingerprint := jsOrStr d.fingerprint "unknown"
    userAgent := jsOrStr d.userAgent ""
    success := d.success
    reason := jsOrStr d.reason "success"
    riskScore := (d.riskScore.getD 0)
    timestamp := now }

/-! ## `src/server/routes/auth.js` — handlers

Each handler is embedded as a pure function from the request and an
environment (the store contents, the outcome of the external RSA decryption
for this ciphertext, the ledger read, the fresh salt/id randomness and the
clock) to a result together with the ordered trace of the engine calls it
performed. -/

/-- JavaScript truthiness of an optional string request field. -/
def truthy : Option String → Bool
  | none => false
  | some s => s ≠ ""

/-- `phone.replace(/\D/g, '')`: keep only ASCII digits. -/
def sanitizePhone (s : String) : String :=
  String.mk (s.data.filter Char.isDigit)

/-- The `userSchema` phone validator `/^\d{10,15}$/` that `User.create`
runs. -/
def phoneKeyValid (s : String) : Bool :=
  10 ≤ s.length ∧ s.length ≤ 15 ∧ s.data.all Char.isDigit

/-- The MPIN format policy `/^\d{4}$|^\d{6}$/`. -/
def isValidMpin (s : String) : Bool :=
  (s.length = 4 ∨ s.length = 6) ∧ s.data.all Char.isDigit

/-- Observable engine calls made by a handler, in order. -/
inductive Ev
  | lookupUser (phone : String)
  | callRiskScorer
  | callDecrypt
  | callVerify
  | createUser (u : User)
  | saveUser (u : User)
  | appendAttempt (a : LoginAttempt)
  deriving DecidableEq, Repr

/-- How many attempt records a trace appends to the ledger. -/
def countAppends (evs : List Ev) : Nat :=
  (evs.filter (fun e => match e with | Ev.appendAttempt _ => true | _ => false)).length

/-- Handler environment: the user store keyed by normalized phone, the
outcome of `rsaDecrypt` on this request's ciphertext (`.error` models the
throw caught by the handler), the attempt-ledger read used by the risk
scorer, the fresh salt from `generateSalt()` and Mongo id, and the clock. -/
structure AuthEnv where
  store : String → Option User
  decrypt : String → Except String String
  ledgerRead : Except String (List LoginAttempt)
  newSalt : String
  newId : String
  now : Nat
  nowHour : Nat

/-- Result of `POST /api/auth/verify-otp`. -/
inductive OtpResult
  | phoneRequired
  | invalidPhoneFormat
  | firebaseTokenRequired
  | verified (isNewUser : Bool) (phone : String)
  deriving DecidableEq, Repr

/-- The `verify-otp` handler: requires a phone, sanitizes it to digits,
rejects fewer than 10 or more than 15 digits, requires a Firebase token
unless in demo mode, then reports whether the user is new. -/
def verifyOtpHandler (phone firebaseToken : Option String) (demoMode : Bool)
    (store : String → Option User) : OtpResult :=
  if ¬ truthy phone then .phoneRequired
  else
    let sanitizedPhone := sanitizePhone (phone.getD "")
    if sanitizedPhone.length < 10 ∨ sanitizedPhone.length > 15 then .invalidPhoneFormat
    else if ¬ demoMode ∧ ¬ truthy firebaseToken then .firebaseTokenRequired
    else .verified (store sanitizedPhone).isNone sanitizedPhone

/-- Request body of `POST /api/auth/register` (plus the request ip and the
already-defaulted `req.headers['user-agent'] || ''`). -/
structure RegisterReq where
  phone : Option String
  encryptedMpin : Option String
  fingerprint : Option String
  ip : String
  userAgent : String

/-- Result of `POST /api/auth/register`.  `registered` carries the response
`user` object (`newUser.toJSON()`); `serverError` models an exception
reaching the outer `catch` (500). -/
inductive RegisterResult
  | missingFields
  | alreadyRegistered
  | invalidCiphertext
  | invalidPinFormat
  | registered (user : List (String × String))
  | serverError
  deriving DecidableEq, Repr

/-- The `register` handler, `src/server/routes/auth.js` lines 109–203. -/
def registerRun (req : RegisterReq) (env : AuthEnv) : RegisterResult × List Ev :=
  if ¬ (truthy req.phone ∧ truthy req.encryptedMpin) then (.missingFields, [])
  else
    let sanitizedPhone := sanitizePhone (req.phone.getD "")
    let ev0 := [Ev.lookupUser sanitizedPhone]
    match env.store sanitizedPhone with
    | some _ => (.alreadyRegistered, ev0)
    | none =>
      let ev1 := ev0 ++ [Ev.callDecrypt]
      match env.decrypt (req.encryptedMpin.getD "") with
      | .error _ => (.invalidCiphertext, ev1)
      | .ok rawMpin =>
        if ¬ isValidMpin rawMpin then (.invalidPinFormat, ev1)
        else
          let salt := env.newSalt
          let mpinHash := sha512Hash rawMpin salt
          -- `User.create` runs the schema validators; an invalid phone key
          -- throws, which the outer catch turns into a 500.
          if ¬ phoneKeyValid sanitizedPhone then (.serverError, ev1)
          else
            let newUser : User :=
              { id := env.newId
                phone := sanitizedPhone
                name := "SmartBank User"
                mpinHash := mpinHash
                mpinSalt := salt
                devices :=
                  if truthy req.fingerprint then
                    [{ fingerprint := req.fingerprint.getD "", userAgent := req.userAgent,
                       lastUsed := env.now, trusted := true }]
                  else []
                failedAttempts := 0
                lockedUntil := none
                createdAt := env.now
                lastLogin := none }
            let att := mkLoginAttempt
              { phone := sanitizedPhone, ip := req.ip,
                fingerprint := some (jsOrStr req.fingerprint "unknown"),
                userAgent := some req.userAgent,
                success := true, reason := some "success", riskScore := some 0 } env.now
            (.registered newUser.toJSON,
             ev1 ++ [Ev.createUser newUser, Ev.appendAttempt att])

/-- Request body of `POST /api/auth/login`. -/
structure LoginReq where
  phone : Option String
  encryptedMpin : Option String
  fingerprint : Option String
  ip : String
  userAgent : String

/-- Result of `POST /api/auth/login`.  `accountLocked` carries the raw
`lockedUntil` field echoed in the 423 response; `wrongCredential` carries the
`attemptsRemaining` computed as `5 - user.failedAttempts` after the failure
update; `loginSuccess` carries `user.toJSON()` plus the displayed risk
score/flags. -/
inductive LoginResult
  | missingFields
  | notFound
  | accountLocked (lockedUntil : Option Nat)
  | riskBlocked (riskFlags : List String)
  | invalidCiphertext
  | wrongCredential (attemptsRemaining : Int)
  | loginSuccess (user : List (String × String)) (riskScore : Nat) (riskFlags : List String)
  | serverError
  deriving DecidableEq, Repr

/-- Update the `lastUsed` stamp of the first device with this fingerprint
(the handler mutates the object `devices.find` returned). -/
def updateFirstDevice (fp : String) (now : Nat) : List Device → List Device
  | [] => []
  | d :: ds =>
    if d.fingerprint = fp then { d with lastUsed := now } :: ds
    else d :: updateFirstDevice fp now ds

/-- Step 4 of the login handler: if a fingerprint was supplied, either push
a new trusted device binding or stamp `lastUsed` on the known one. -/
def bindDevice (u : User) (fingerprint : Option String) (userAgent : String)
    (now : Nat) : User :=
  if truthy fingerprint then
    let fp := fingerprint.getD ""
    match u.devices.find? (fun d => d.fingerprint = fp) with
    | none =>
      { u with devices := u.devices ++
          [{ fingerprint := fp, userAgent := userAgent, lastUsed := now, trusted := true }] }
    | some _ => { u with devices := updateFirstDevice fp now u.devices }
  else u

/-- The `login` handler, `src/server/routes/auth.js` lines 216–371. -/
def loginRun (req : LoginReq) (env : AuthEnv) : LoginResult × List Ev :=
  if ¬ (truthy req.phone ∧ truthy req.encryptedMpin) then (.missingFields, [])
  else
    let sanitizedPhone := sanitizePhone (req.phone.getD "")
    let ev0 := [Ev.lookupUser sanitizedPhone]
    match env.store sanitizedPhone with
    | none => (.notFound, ev0)
    | some user =>
      if user.isLocked env.now then
        let att := mkLoginAttempt
          { phone := sanitizedPhone, ip := req.ip,
            fingerprint := some (jsOrStr req.fingerprint "unknown"),
            userAgent := none, success := false,
            reason := some "account_locked", riskScore := none } env.now
        (.accountLocked user.lockedUntil, ev0 ++ [Ev.appendAttempt att])
      else
        let riskAssessment :=
          calculateRiskScore env.ledgerRead req.ip (jsOrStr req.fingerprint "unknown")
            env.now env.nowHour
        let ev1 := ev0 ++ [Ev.callRiskScorer]
        if riskAssessment.action = "block" then
          let att := mkLoginAttempt
            { phone := sanitizedPhone, ip := req.ip,
              fingerprint := some (jsOrStr req.fingerprint "unknown"),
              userAgent := none, success := false,
              reason := some "fraud_detected", riskScore := some riskAssessment.score } env.now
          (.riskBlocked riskAssessment.flags, ev1 ++ [Ev.appendAttempt att])
        else
          let ev2 := ev1 ++ [Ev.callDecrypt]
          match env.decrypt (req.encryptedMpin.getD "") with
          | .error _ => (.invalidCiphertext, ev2)
          | .ok rawMpin =>
            let ev3 := ev2 ++ [Ev.callVerify]
            match verifyMpin rawMpin user.mpinHash user.mpinSalt with
            | none => (.serverError, ev3)
            | some false =>
              let u2 := user.incrementFailedAttempts env.now
              let remaining : Int := 5 - (u2.failedAttempts : Int)
              let att := mkLoginAttempt
                { phone := sanitizedPhone, ip := req.ip,
                  fingerprint := some (jsOrStr req.fingerprint "unknown"),
                  userAgent := none, success := false,
                  reason := some "wrong_mpin", riskScore := some riskAssessment.score } env.now
              (.wrongCredential remaining, ev3 ++ [Ev.saveUser u2, Ev.appendAttempt att])
            | some true =>
              let u2 := user.resetFailedAttempts env.now
              let u3 := bindDevice u2 req.fingerprint req.userAgent env.now
              let att := mkLoginAttempt
                { phone := sanitizedPhone, ip := req.ip,
                  fingerprint := some (jsOrStr req.fingerprint "unknown"),
                  userAgent := none, success := true,
                  reason := some "success", riskScore := some riskAssessment.score } env.now
              (.loginSuccess u3.toJSON riskAssessment.score riskAssessment.flags,
               ev3 ++ [Ev.saveUser u2] ++
                 (if truthy req.fingerprint then [Ev.saveUser u3] else []) ++
                 [Ev.appendAttempt att])

/-! ## Supporting lemmas -/

/-- `toBytesBE k n` is exactly `k` bytes long. -/
theorem toBytesBE_length (k : Nat) : ∀ n : Nat, (toBytesBE k n).length = k := by
  induction k with
  | zero => intro n; rfl
  | succ k ih => intro n; simp [toBytesBE, ih]

/-- A SHA-512 digest is exactly 64 bytes. -/
theorem sha512Bytes_length (msg : List Nat) : (sha512Bytes msg).length = 64 := by
  simp [sha512Bytes, sha512StateBytes, toBytesBE_length]

/-- Hex-encoding the digit of a nibble decodes back to it. -/
theorem hexVal_hexDigitChar (n : Nat) (h : n < 16) : hexVal (hexDigitChar n) = some n := by
  interval_cases n <;> decide

/-- Decoding the hex encoding of a byte list recovers each byte mod 256. -/
theorem hexDecodeChars_flatMap_byteHex (bs : List Nat) :
    hexDecodeChars (bs.flatMap byteHex) = bs.map (fun b => 16 * (b / 16 % 16) + b % 16) := by
  induction bs with
  | nil => rfl
  | cons b bs ih =>
    have h1 : b / 16 % 16 < 16 := Nat.mod_lt _ (by omega)
    have h2 : b % 16 < 16 := Nat.mod_lt _ (by omega)
    have step : ∀ c1 c2 rest, hexDecodeChars (c1 :: c2 :: rest) =
        match hexVal c1, hexVal c2 with
        | some hi, some lo => (16 * hi + lo) :: hexDecodeChars rest
        | _, _ => [] := fun _ _ _ => rfl
    show hexDecodeChars (hexDigitChar (b / 16 % 16) :: hexDigitChar (b % 16) :: bs.flatMap byteHex) = _
    rw [step, hexVal_hexDigitChar _ h1, hexVal_hexDigitChar _ h2]
    simpa using ih

/-- Hex-decoding a hex-encoded byte list gives back as many bytes. -/
theorem hexDecode_bytesToHex_length (bs : List Nat) :
    (hexDecode (bytesToHex bs)).length = bs.length := by
  simp [hexDecode, bytesToHex, hexDecodeChars_flatMap_byteHex]

/-- The hex digest `sha512hex s` always decodes to 64 bytes. -/
theorem hexDecode_sha512hex_length (s : String) :
    (hexDecode (sha512hex s)).length = 64 := by
  rw [sha512hex, hexDecode_bytesToHex_length, sha512Bytes_length]

/-- The XOR-accumulating fold of the constant-time compare leaves the
accumulator unchanged when both inputs are the same list. -/
theorem ctFold_self (l : List Nat) :
    ∀ acc : Nat, ((l.zip l).foldl (fun acc p => acc ||| (p.1 ^^^ p.2)) acc) = acc := by
  induction l with
  | nil => intro acc; rfl
  | cons x xs ih =>
    intro acc
    show List.foldl _ (acc ||| (x ^^^ x)) (xs.zip xs) = acc
    rw [Nat.xor_self, Nat.or_zero]
    exact ih acc

/-- The constant-time compare accepts a list against itself. -/
theorem timingSafeEqual_self (a : List Nat) : timingSafeEqual a a = some true := by
  simp [timingSafeEqual, ctFold_self]

/-- Hex encoding produces two characters per byte. -/
theorem bytesToHex_length (bs : List Nat) : (bytesToHex bs).length = 2 * bs.length := by
  induction bs with
  | nil => rfl
  | cons b bs ih =>
    simp [bytesToHex, byteHex, String.length] at ih ⊢
    omega

/-- `sha512hex` always returns 128 hex characters (a 512-bit digest). -/
theorem sha512hex_length (s : String) : (sha512hex s).length = 128 := by
  rw [sha512hex, bytesToHex_length, sha512Bytes_length]

/-- The embedded SHA-512 agrees with the FIPS 180-4 test vector for
`"abc"` (the digest Node's `crypto` library would produce). -/
theorem sha512hex_abc :
    sha512hex "abc" = "ddaf35a193617abacc417349ae20413112e6fa4e89a97ea20a9eeee64b55d39a2192992a274fc1a836ba3c23a3feebbd454d4423643ce80e2a9ac94fa54ca49f" := by
  decide

/-! ## Claims -/

/-- **C3**: whenever a failed verification raises the failure counter to the
threshold of 5 (i.e. it was 4), `incrementFailedAttempts` resets the counter
to 0 and sets the lock expiry to now + 30 minutes in the same update; below
the threshold the counter just increments and the lock expiry is untouched,
so neither change ever happens without the other. -/
theorem c3_threshold_locks_and_resets_together (u : User) (now : Nat)
    (hle : u.failedAttempts ≤ 4) :
    (u.failedAttempts = 4 →
      (u.incrementFailedAttempts now).failedAttempts = 0 ∧
      (u.incrementFailedAttempts now).lockedUntil = some (now + lockDurationMs)) ∧
    (u.failedAttempts < 4 →
      (u.incrementFailedAttempts now).failedAttempts = u.failedAttempts + 1 ∧
      (u.incrementFailedAttempts now).lockedUntil = u.lockedUntil) := by
  unfold User.incrementFailedAttempts
  constructor
  · intro h4
    rw [if_pos (by omega)]
    exact ⟨rfl, rfl⟩
  · intro hlt
    rw [if_neg (by omega)]
    exact ⟨rfl, rfl⟩

/-- Witness for C3 at a user whose counter stands at 4. -/
theorem c3_threshold_locks_and_resets_together_witness :
    (User.incrementFailedAttempts
        ⟨"u1", "9876543210", "SmartBank User", "h", "s", [], 4, none, 0, none⟩
        7).failedAttempts = 0 ∧
    (User.incrementFailedAttempts
        ⟨"u1", "9876543210", "SmartBank User", "h", "s", [], 4, none, 0, none⟩
        7).lockedUntil = some (7 + lockDurationMs) :=
  (c3_threshold_locks_and_resets_together
    ⟨"u1", "9876543210", "SmartBank User", "h", "s", [], 4, none, 0, none⟩
    7 (by decide)).1 rfl

/-- **C6**: on an empty attempt history the risk scorer flags `first_login`,
scores exactly 5 plus 10 more exactly when the hour of day lies in `[2,5]`,
and the action is allow. -/
theorem c6_empty_history_first_login (ip fp : String) (now nowHour : Nat) :
    "first_login" ∈ (calculateRiskScore (.ok []) ip fp now nowHour).flags ∧
    (calculateRiskScore (.ok []) ip fp now nowHour).score
      = 5 + (if 2 ≤ nowHour ∧ nowHour ≤ 5 then 10 else 0) ∧
    (calculateRiskScore (.ok []) ip fp now nowHour).action = "allow" := by
  unfold calculateRiskScore
  by_cases h : 2 ≤ nowHour ∧ nowHour ≤ 5 <;> simp [h]

/-- **C7**: when the attempt-ledger read fails, the risk scorer returns
exactly score 10, the single flag `detection_error`, and the allow action —
regardless of every other input, so the failure never propagates to the
login path. -/
theorem c7_ledger_failure_neutral_fallback (e ip fp : String) (now nowHour : Nat) :
    calculateRiskScore (.error e) ip fp now nowHour
      = { score := 10, flags := ["detection_error"], action := "allow" } := rfl

/-- **C8**: for every PIN string and every salt string,
`verifyMpin pin (sha512Hash pin salt) salt` succeeds with `true`, where
`sha512Hash pin salt` is the 512-bit (128 hex character) digest of
`salt ++ pin`. -/
theorem c8_verify_of_hash_is_true (pin salt : String) :
    verifyMpin pin (sha512Hash pin salt) salt = some true ∧
    sha512Hash pin salt = sha512hex (salt ++ pin) ∧
    (sha512Hash pin salt).length = 128 :=
  ⟨timingSafeEqual_self _, rfl, sha512hex_length _⟩

/-- **C9**: in the byte-comparison cost model of the constant-time compare,
`verifyMpin` performs the same number of byte comparisons on any two inputs
whose stored digests decode to the same length — in particular the position
of the first differing byte between the recomputed and the stored digest is
irrelevant to the cost. -/
theorem c9_verify_constant_time (p1 h1 s1 p2 h2 s2 : String)
    (hlen : (hexDecode h1).length = (hexDecode h2).length) :
    verifyMpinSteps p1 h1 s1 = verifyMpinSteps p2 h2 s2 := by
  unfold verifyMpinSteps timingSafeEqualSteps sha512Hash
  rw [List.length_zip, List.length_zip,
      hexDecode_sha512hex_length, hexDecode_sha512hex_length, hlen]

/-- Witness for C9: stored digests that differ from the recomputed one at
the very first byte versus at no position at all, equal length. -/
theorem c9_verify_constant_time_witness :
    (hexDecode (String.mk (List.replicate 128 '0'))).length
      = (hexDecode (String.mk (List.replicate 128 'f'))).length ∧
    verifyMpinSteps "1111" (String.mk (List.replicate 128 '0')) ""
      = verifyMpinSteps "9999" (String.mk (List.replicate 128 'f')) "" :=
  ⟨by decide, c9_verify_constant_time _ _ _ _ _ _ (by decide)⟩

/-- **C4**: for every login attempt on an identity whose lock expiry is in
the future, the handler returns `accountLocked` with the stored expiry and
appends exactly the one failed `account_locked` attempt, never invoking the
risk scorer, the decryptor, or the hash verifier. -/
theorem c4_locked_account_short_circuits (req : LoginReq) (env : AuthEnv) (user : User)
    (hp : truthy req.phone = true) (hm : truthy req.encryptedMpin = true)
    (hstore : env.store (sanitizePhone (req.phone.getD "")) = some user)
    (hlock : user.isLocked env.now = true) :
    loginRun req env =
      (.accountLocked user.lockedUntil,
       [Ev.lookupUser (sanitizePhone (req.phone.getD "")),
        Ev.appendAttempt
          { phone := sanitizePhone (req.phone.getD ""), ip := req.ip,
            fingerprint := jsOrStr req.fingerprint "unknown", userAgent := "",
            success := false, reason := "account_locked", riskScore := 0,
            timestamp := env.now }]) ∧
    Ev.callRiskScorer ∉ (loginRun req env).2 ∧
    Ev.callDecrypt ∉ (loginRun req env).2 ∧
    Ev.callVerify ∉ (loginRun req env).2 := by
  have hrun : loginRun req env =
      (.accountLocked user.lockedUntil,
       [Ev.lookupUser (sanitizePhone (req.phone.getD "")),
        Ev.appendAttempt
          { phone := sanitizePhone (req.phone.getD ""), ip := req.ip,
            fingerprint := jsOrStr req.fingerprint "unknown", userAgent := "",
            success := false, reason := "account_locked", riskScore := 0,
            timestamp := env.now }]) := by
    unfold loginRun
    rw [if_neg (by simp [hp, hm])]
    dsimp only []
    rw [hstore]
    dsimp only []
    rw [hlock]
    simp [mkLoginAttempt, jsOrStr]
    intro h0
    refine absurd h0 ?_
    rcases req.fingerprint with _ | s
    · decide
    · dsimp only []
      split
      · decide
      · next hs => exact hs
  refine ⟨hrun, ?_, ?_, ?_⟩ <;> rw [hrun] <;> simp

/-- Concrete locked user for the C4 witness. -/
def c4User : User :=
  ⟨"u1", "9876543210", "SmartBank User", "h", "s", [], 0, some 5000, 0, none⟩

/-- Concrete environment for the C4 witness: the lock expiry `5000` is in
the future of `now = 1000`. -/
def c4Env : AuthEnv :=
  ⟨fun p => if p = "9876543210" then some c4User else none,
   fun _ => .ok "1234", .ok [], "ab", "id2", 1000, 10⟩

def c4Req : LoginReq :=
  ⟨some "98765-43210", some "blob", some "fp1", "1.2.3.4", "UA"⟩

/-- Witness for C4 at a concrete locked identity. -/
theorem c4_locked_account_short_circuits_witness :
    loginRun c4Req c4Env =
      (.accountLocked c4User.lockedUntil,
       [Ev.lookupUser (sanitizePhone (c4Req.phone.getD "")),
        Ev.appendAttempt
          { phone := sanitizePhone (c4Req.phone.getD ""), ip := c4Req.ip,
            fingerprint := jsOrStr c4Req.fingerprint "unknown", userAgent := "",
            success := false, reason := "account_locked", riskScore := 0,
            timestamp := c4Env.now }]) ∧
    Ev.callRiskScorer ∉ (loginRun c4Req c4Env).2 ∧
    Ev.callDecrypt ∉ (loginRun c4Req c4Env).2 ∧
    Ev.callVerify ∉ (loginRun c4Req c4Env).2 :=
  c4_locked_account_short_circuits c4Req c4Env c4User
    (by decide) (by decide) (by decide) (by decide)

/-- User at failure count 4 whose stored digest does not match the entered
PIN (an all-zero digest of valid length). -/
def c1User : User :=
  ⟨"u1", "9876543210", "SmartBank User", String.mk (List.replicate 128 '0'), "",
   [], 4, none, 0, none⟩

def c1Env : AuthEnv :=
  ⟨fun p => if p = "9876543210" then some c1User else none,
   fun _ => .ok "9999", .ok [], "ab", "id2", 1000, 10⟩

def c1Req : LoginReq :=
  ⟨some "9876543210", some "blob", some "fp1", "1.2.3.4", "UA"⟩

/-- **C1** (code bug): on the attempt whose failure locks the account (the
counter stood at 4), the handler saves the locked user with the counter
reset to 0 — and therefore returns `attemptsRemaining = 5 - 0 = 5`, not 0,
making the handler's own "Account has been locked" message branch
(`remaining > 0 ? … : locked-message`) unreachable. -/
theorem c1_locking_attempt_returns_five_remaining :
    loginRun c1Req c1Env =
      (.wrongCredential 5,
       [Ev.lookupUser "9876543210", Ev.callRiskScorer, Ev.callDecrypt, Ev.callVerify,
        Ev.saveUser { c1User with failedAttempts := 0,
                                  lockedUntil := some (1000 + lockDurationMs) },
        Ev.appendAttempt
          { phone := "9876543210", ip := "1.2.3.4", fingerprint := "fp1",
            userAgent := "", success := false, reason := "wrong_mpin",
            riskScore := 5, timestamp := 1000 }]) := by
  decide

/-- User with a well-formed stored digest, for the C2 counterexample. -/
def c2User : User :=
  ⟨"u1", "9876543210", "SmartBank User", String.mk (List.replicate 128 '0'), "",
   [], 0, none, 0, none⟩

/-- Environment in which the RSA decryption of this request's ciphertext
throws. -/
def c2Env : AuthEnv :=
  ⟨fun p => if p = "9876543210" then some c2User else none,
   fun _ => .error "Decryption failed - invalid encrypted data", .ok [], "ab", "id2", 1000, 10⟩

def c2Req : LoginReq :=
  ⟨some "9876543210", some "not-a-valid-ciphertext", some "fp1", "1.2.3.4", "UA"⟩

/-- Counterexample to **C2**: a login attempt that fails at RSA decryption
returns `invalidCiphertext` with zero attempt records appended to the
ledger, not exactly one. -/
theorem c2_decrypt_failure_appends_no_record :
    (loginRun c2Req c2Env).1 = .invalidCiphertext ∧
    countAppends (loginRun c2Req c2Env).2 = 0 := by
  decide

/-- How many ledger appends the amended claim expects for each login
verdict: one for the success, account-locked, fraud-detected and wrong-MPIN
outcomes, none for the decryption-failure outcome and the other early
rejections. -/
def specExpectedLedgerAppends : LoginResult → Nat
  | .accountLocked _ => 1
  | .riskBlocked _ => 1
  | .wrongCredential _ => 1
  | .loginSuccess _ _ _ => 1
  | _ => 0

/-- **C2 amended**: every login attempt ending in success, account_locked,
fraud_detected or wrong_mpin appends exactly one record to the attempt
ledger before the verdict is returned; an attempt that fails at decryption
(and the earlier not-found / missing-field rejections) appends none. -/
theorem c2_ledger_append_counts (req : LoginReq) (env : AuthEnv) :
    countAppends (loginRun req env).2
      = specExpectedLedgerAppends (loginRun req env).1 := by
  unfold loginRun
  split
  · rfl
  · dsimp only []
    split
    · rfl
    · split
      · simp [countAppends, specExpectedLedgerAppends]
      · split
        · simp [countAppends, specExpectedLedgerAppends]
        · split
          · simp [countAppends, specExpectedLedgerAppends]
          · split
            · simp [countAppends, specExpectedLedgerAppends]
            · simp [countAppends, specExpectedLedgerAppends]
            · split <;> simp [countAppends, specExpectedLedgerAppends]

/-- Counterexample to **C5**: a register request whose phone sanitizes to
the 3-digit key `"123"` is not rejected before the engine runs — the
handler invokes the decryptor and only fails afterwards with a 500 server
error, raised by the storage schema validation rather than by a phone
format check. -/
theorem c5_short_phone_not_rejected_before_engine :
    (registerRun ⟨some "abc123", some "blob", none, "9.9.9.9", ""⟩
        ⟨fun _ => none, fun _ => .ok "1234", .ok [], "ab", "id1", 0, 10⟩).1
      = .serverError ∧
    Ev.callDecrypt ∈ (registerRun ⟨some "abc123", some "blob", none, "9.9.9.9", ""⟩
        ⟨fun _ => none, fun _ => .ok "1234", .ok [], "ab", "id1", 0, 10⟩).2 ∧
    (sanitizePhone "abc123").length < 10 := by
  decide

/-- **C5 amended**: every inbound phone is normalized to digits-only and
that normalized string is the identity key the handlers use (the store is
consulted at exactly `sanitizePhone phone`), but the 10–15-digit length
rejection exists only in the verify-otp handler; the register and login
handlers proceed into their engine logic on out-of-range keys. -/
theorem c5_normalization_and_length_check
    (phone token : Option String) (demo : Bool) (store : String → Option User)
    (lreq : LoginReq) (rreq : RegisterReq) (envL envR : AuthEnv)
    (hp : truthy phone = true)
    (hlen : (sanitizePhone (phone.getD "")).length < 10 ∨
            15 < (sanitizePhone (phone.getD "")).length)
    (hlp : truthy lreq.phone = true) (hlm : truthy lreq.encryptedMpin = true)
    (hrp : truthy rreq.phone = true) (hrm : truthy rreq.encryptedMpin = true) :
    verifyOtpHandler phone token demo store = .invalidPhoneFormat ∧
    (loginRun lreq envL).2.head?
      = some (Ev.lookupUser (sanitizePhone (lreq.phone.getD ""))) ∧
    (registerRun rreq envR).2.head?
      = some (Ev.lookupUser (sanitizePhone (rreq.phone.getD ""))) ∧
    (sanitizePhone (phone.getD "")).data.all Char.isDigit = true := by
  refine ⟨?_, ?_, ?_, ?_⟩
  · unfold verifyOtpHandler
    rw [if_neg (by simp [hp])]
    dsimp only []
    rw [if_pos (by omega)]
  · unfold loginRun
    rw [if_neg (by simp [hlp, hlm])]
    dsimp only []
    split
    · rfl
    · split
      · rfl
      · split
        · rfl
        · split
          · rfl
          · split <;> rfl
  · unfold registerRun
    rw [if_neg (by simp [hrp, hrm])]
    dsimp only []
    split
    · rfl
    · split
      · rfl
      · split
        · rfl
        · split <;> rfl
  · simp [sanitizePhone, List.all_eq_true]

/-- Witness for the amended C5: the phone `" 123 "` sanitizes to `"123"`,
is rejected by verify-otp, while concrete login and register requests
consult the store at their normalized keys. -/
theorem c5_normalization_and_length_check_witness :
    verifyOtpHandler (some " 123 ") (some "tok") false (fun _ => none)
      = .invalidPhoneFormat ∧
    (loginRun ⟨some "98765 43210", some "blob", none, "ip", "UA"⟩
        ⟨fun _ => none, fun _ => .error "e", .ok [], "ab", "id1", 0, 10⟩).2.head?
      = some (Ev.lookupUser "9876543210") ∧
    (registerRun ⟨some "98765 43210", some "blob", none, "ip", "UA"⟩
        ⟨fun _ => none, fun _ => .error "e", .ok [], "ab", "id1", 0, 10⟩).2.head?
      = some (Ev.lookupUser "9876543210") ∧
    (sanitizePhone " 123 ").data.all Char.isDigit = true :=
  c5_normalization_and_length_check (some " 123 ") (some "tok") false (fun _ => none)
    ⟨some "98765 43210", some "blob", none, "ip", "UA"⟩
    ⟨some "98765 43210", some "blob", none, "ip", "UA"⟩
    ⟨fun _ => none, fun _ => .error "e", .ok [], "ab", "id1", 0, 10⟩
    ⟨fun _ => none, fun _ => .error "e", .ok [], "ab", "id1", 0, 10⟩
    (by decide) (by decide) (by decide) (by decide) (by decide) (by decide)

/-- The keys of a serialized user: the sensitive fields are gone. -/
theorem toJSON_keys (u : User) :
    (User.toJSON u).map Prod.fst
      = ["_id", "phone", "name", "devices", "failedAttempts",
         "lockedUntil", "createdAt", "lastLogin"] := rfl

/-- **C10**: `toJSON` strips `mpinHash` and `mpinSalt` from every stored
identity record, and hence the `user` object in every successful register
response and every successful login response contains neither field. -/
theorem c10_no_secret_fields_in_responses (u : User) :
    ("mpinHash" ∉ (User.toJSON u).map Prod.fst ∧
     "mpinSalt" ∉ (User.toJSON u).map Prod.fst) ∧
    (∀ (lreq : LoginReq) (env : AuthEnv) uj sc fl,
      (loginRun lreq env).1 = .loginSuccess uj sc fl →
      "mpinHash" ∉ uj.map Prod.fst ∧ "mpinSalt" ∉ uj.map Prod.fst) ∧
    (∀ (rreq : RegisterReq) (env : AuthEnv) uj,
      (registerRun rreq env).1 = .registered uj →
      "mpinHash" ∉ uj.map Prod.fst ∧ "mpinSalt" ∉ uj.map Prod.fst) := by
  have hkeys : ∀ v : User, "mpinHash" ∉ (User.toJSON v).map Prod.fst ∧
      "mpinSalt" ∉ (User.toJSON v).map Prod.fst := by
    intro v
    rw [toJSON_keys]
    constructor <;> simp
  refine ⟨hkeys u, ?_, ?_⟩
  · intro lreq env uj sc fl h
    unfold loginRun at h
    split at h
    · exact absurd h (by simp)
    · dsimp only [] at h
      split at h
      · exact absurd h (by simp)
      · split at h
        · exact absurd h (by simp)
        · split at h
          · exact absurd h (by simp)
          · split at h
            · exact absurd h (by simp)
            · split at h
              · exact absurd h (by simp)
              · exact absurd h (by simp)
              · simp only [LoginResult.loginSuccess.injEq] at h
                rw [← h.1]
                exact hkeys _
  · intro rreq env uj h
    unfold registerRun at h
    split at h
    · exact absurd h (by simp)
    · dsimp only [] at h
      split at h
      · exact absurd h (by simp)
      · split at h
        · exact absurd h (by simp)
        · split at h
          · exact absurd h (by simp)
          · split at h
            · exact absurd h (by simp)
            · simp only [RegisterResult.registered.injEq] at h
              rw [← h]
              exact hkeys _

/-- Witness for C10: a concrete successful registration whose response user
object has no `mpinHash` / `mpinSalt` key. -/
theorem c10_no_secret_fields_in_responses_witness :
    "mpinHash" ∉ (User.toJSON
        { id := "id1", phone := "9876543210", name := "SmartBank User",
          mpinHash := sha512Hash "1234" "ab", mpinSalt := "ab",
          devices := [⟨"fp1", "UA", 0, true⟩], failedAttempts := 0,
          lockedUntil := none, createdAt := 0, lastLogin := none }).map Prod.fst ∧
    "mpinSalt" ∉ (User.toJSON
        { id := "id1", phone := "9876543210", name := "SmartBank User",
          mpinHash := sha512Hash "1234" "ab", mpinSalt := "ab",
          devices := [⟨"fp1", "UA", 0, true⟩], failedAttempts := 0,
          lockedUntil := none, createdAt := 0, lastLogin := none }).map Prod.fst :=
  (c10_no_secret_fields_in_responses
      { id := "id1", phone := "9876543210", name := "SmartBank User",
        mpinHash := sha512Hash "1234" "ab", mpinSalt := "ab",
        devices := [⟨"fp1", "UA", 0, true⟩], failedAttempts := 0,
        lockedUntil := none, createdAt := 0, lastLogin := none }).2.2
    ⟨some "9876543210", some "blob", some "fp1", "1.2.3.4", "UA"⟩
    ⟨fun _ => none, fun _ => .ok "1234", .ok [], "ab", "id1", 0, 10⟩
    _ rfl

end SmartBank
